import Mathlib

/-!
Shallow embedding of the Expection library (src/Expection.hpp) and the
divide_by demonstration operation (src/testexpection.cpp).

Modelling decisions:
* `Policy::Exceptions` is the spec's Raise channel, `Policy::Expected` the
  spec's Return channel; the C++ enumerator names are kept.
* `std::expected<R, E>` is modelled by the tagged union `Expected R E` with
  constructors `val` (success case) and `err` (error case), queryable via
  `has_value` mirroring `std::expected::has_value()`.
* Every fault object thrown in this repository is a `std::runtime_error`
  carrying a description string obtained via `what()`; the common fault base
  is modelled as `RuntimeError` holding that string.
* A C++ function whose body may `throw` is embedded as a function into
  `Outcome A`: `Outcome.ret a` is a normal return of `a`, `Outcome.thrown ex`
  is control transfer via the raised fault `ex`.
* The capability concepts (`ErrorFunctor`, `ExceptionConstructable`,
  `ExceptionConvertible`, and the two callable concepts) are structural
  compile-time requirements in C++; the embedding passes the required
  operations explicitly, bundled in structures of the same names.  For the
  in-place strategy, `construct` models the brace-initialization `E{args...}`
  performed in the Return branch of that overload.
* `double` arithmetic in divide_by is modelled over `Rat`; the only divisions
  the claims evaluate (1/2) are exact in both.
-/

set_option linter.unusedVariables false

namespace Expection

inductive Policy where
  | Exceptions
  | Expected
deriving DecidableEq

/-- Absent an EXPECTION_DEFAULTPOLICY override, the default is Exceptions. -/
def DefaultPolicy : Policy := Policy.Exceptions

/-- Common fault base: an exception object observed via its what() string. -/
structure RuntimeError where
  what : String
deriving DecidableEq

/-- Tagged success/error union modelling std::expected<R, E>. -/
inductive Expected (R E : Type) where
  | val : R → Expected R E
  | err : E → Expected R E
deriving DecidableEq

def Expected.has_value {R E : Type} : Expected R E → Bool
  | .val _ => true
  | .err _ => false

/-- Dynamic behaviour of a call: normal return or control transfer by throw. -/
inductive Outcome (A : Type) where
  | ret : A → Outcome A
  | thrown : RuntimeError → Outcome A
deriving DecidableEq

def Outcome.isRet {A : Type} : Outcome A → Bool
  | .ret _ => true
  | .thrown _ => false

def Outcome.isThrown {A : Type} : Outcome A → Bool
  | .ret _ => false
  | .thrown _ => true

/-- ResultType<R, E, P>: R under Exceptions, std::expected<R, E> under
Expected (Expection.hpp lines 19-21).  Reducible because the C++ original is
a transparent alias template. -/
@[reducible] def ResultType (R E : Type) (P : Policy) : Type :=
  match P with
  | .Exceptions => R
  | .Expected => Expected R E

/-- success<R, E, P>(val) (Expection.hpp lines 24-34).  It contains no throw
statement, so it is embedded as a total function into ResultType itself. -/
def success {R E : Type} (P : Policy) (v : R) : ResultType R E P :=
  match P with
  | .Exceptions => v
  | .Expected => Expected.val v

/-- Void specialization success<E, P>() (Expection.hpp lines 37-44); void is
modelled as Unit. -/
def successVoid {E : Type} (P : Policy) : ResultType Unit E P :=
  match P with
  | .Exceptions => ()
  | .Expected => Expected.val ()

/-- Capability of the functor strategy: a helper type with static exception()
and unexpected() factories (Expection.hpp lines 49-58). -/
structure ErrorFunctor (E A : Type) where
  exception : A → RuntimeError
  unexpected : A → E

/-- Functor-based make_failure overload (Expection.hpp lines 62-71). -/
def make_failure_functor {R E A : Type} (F : ErrorFunctor E A) (P : Policy)
    (a : A) : Outcome (ResultType R E P) :=
  match P with
  | .Exceptions => Outcome.thrown (F.exception a)
  | .Expected => Outcome.ret (Expected.err (F.unexpected a))

/-- Callable-pair make_failure overload (Expection.hpp lines 86-97): the
first callable produces the tagged error case, the second the fault. -/
def make_failure_callable {R E A : Type} (unexpected : A → E)
    (exception : A → RuntimeError) (P : Policy) (a : A) :
    Outcome (ResultType R E P) :=
  match P with
  | .Exceptions => Outcome.thrown (exception a)
  | .Expected => Outcome.ret (Expected.err (unexpected a))

/-- Capability of the in-place strategy (Expection.hpp lines 100-105):
E::exception is the static fault factory; `construct` models the
brace-initialization E{args...} used by the Return branch. -/
structure ExceptionConstructable (E A : Type) where
  exception : A → RuntimeError
  construct : A → E

/-- In-place (static constructor) make_failure overload
(Expection.hpp lines 108-117). -/
def make_failure_inplace {R E A : Type} (cap : ExceptionConstructable E A)
    (P : Policy) (a : A) : Outcome (ResultType R E P) :=
  match P with
  | .Exceptions => Outcome.thrown (cap.exception a)
  | .Expected => Outcome.ret (Expected.err (cap.construct a))

/-- Capability of the conversion strategy (Expection.hpp lines 120-123):
an already-constructed error exposing a member exception() conversion. -/
structure ExceptionConvertible (E : Type) where
  exception : E → RuntimeError

/-- Conversion-based failure (Expection.hpp lines 127-134): wraps the
existing instance itself in the Return branch. -/
def failure {R E : Type} (conv : ExceptionConvertible E) (P : Policy)
    (error : E) : Outcome (ResultType R E P) :=
  match P with
  | .Exceptions => Outcome.thrown (conv.exception error)
  | .Expected => Outcome.ret (Expected.err error)

/-! Concrete error type and test operation from src/testexpection.cpp. -/

inductive DivideByErrorKind where
  | DivideByZero
deriving DecidableEq

def err_to_str : DivideByErrorKind → String
  | .DivideByZero => "Division by Zero"

structure DivideByError where
  kind : DivideByErrorKind
deriving DecidableEq

def DivideByError.str (e : DivideByError) : String := err_to_str e.kind

/-- static DivideByError::exception(Kind). -/
def DivideByError.exceptionOfKind (k : DivideByErrorKind) : RuntimeError :=
  RuntimeError.mk (err_to_str k)

/-- member DivideByError::exception(). -/
def DivideByError.exceptionOfSelf (e : DivideByError) : RuntimeError :=
  RuntimeError.mk (err_to_str e.kind)

/-- The in-place capability DivideByError satisfies: its static exception
factory together with aggregate construction DivideByError{k}. -/
def DivideByError.inplaceCap :
    ExceptionConstructable DivideByError DivideByErrorKind :=
  ExceptionConstructable.mk DivideByError.exceptionOfKind
    (fun k => DivideByError.mk k)

/-- struct DivideByErrorFunctor (testexpection.cpp lines 38-46). -/
def DivideByErrorFunctor : ErrorFunctor DivideByError DivideByErrorKind :=
  ErrorFunctor.mk (fun k => RuntimeError.mk (err_to_str k))
    (fun k => DivideByError.mk k)

/-- The conversion capability: the member exception() of DivideByError. -/
def DivideByError.convCap : ExceptionConvertible DivideByError :=
  ExceptionConvertible.mk DivideByError.exceptionOfSelf

inductive FailureMethod where
  | InPlace
  | Functor
  | Callable
  | Conversion
deriving DecidableEq

/-- divide_by<F, P>(numerator, denominator) (testexpection.cpp lines 56-86). -/
def divide_by (F : FailureMethod) (P : Policy) (numerator denominator : Int) :
    Outcome (ResultType Rat DivideByError P) :=
  if denominator = 0 then
    match F with
    | .InPlace =>
        make_failure_inplace DivideByError.inplaceCap P
          DivideByErrorKind.DivideByZero
    | .Functor =>
        make_failure_functor DivideByErrorFunctor P
          DivideByErrorKind.DivideByZero
    | .Callable =>
        make_failure_callable (fun k => DivideByError.mk k)
          (fun k => RuntimeError.mk (err_to_str k)) P
          DivideByErrorKind.DivideByZero
    | .Conversion =>
        failure DivideByError.convCap P
          (DivideByError.mk DivideByErrorKind.DivideByZero)
  else
    Outcome.ret (success P ((numerator : Rat) / (denominator : Rat)))

/-- Call-site model for the policy default (Expection.hpp lines 12-16,
example.cpp): a call may either rely on the configured process-wide default
dp (Pexp = none) or specify an explicit policy (Pexp = some P), which fills
the template parameter instead of the default. -/
def divide_by_call (dp : Policy) (Pexp : Option Policy) (F : FailureMethod)
    (n d : Int) : Outcome (ResultType Rat DivideByError (Pexp.getD dp)) :=
  divide_by F (Pexp.getD dp) n d

/-- C1: Strategy equivalence.  When the four strategies are instantiated with
logically-equivalent arguments (an error builder mk and a fault conversion
toExn, so that the fault factories all agree with toExn after mk, as they do
for DivideByError), all four produce the same Outcome for every Policy; in
particular the embedded divide_by yields the same outcome for each of the
four FailureMethod instantiations at every input, so Return-policy error
payloads and Raise-policy fault descriptions agree across strategies. -/
theorem strategy_equivalence :
    (∀ (R E A : Type) (mk : A → E) (toExn : E → RuntimeError) (P : Policy)
        (a : A),
      @make_failure_inplace R E A
          (ExceptionConstructable.mk (fun y => toExn (mk y)) mk) P a
        = @make_failure_functor R E A
            (ErrorFunctor.mk (fun y => toExn (mk y)) mk) P a ∧
      @make_failure_functor R E A
          (ErrorFunctor.mk (fun y => toExn (mk y)) mk) P a
        = @make_failure_callable R E A mk (fun y => toExn (mk y)) P a ∧
      @make_failure_callable R E A mk (fun y => toExn (mk y)) P a
        = @failure R E (ExceptionConvertible.mk toExn) P (mk a)) ∧
    (∀ (F1 F2 : FailureMethod) (P : Policy) (n d : Int),
      divide_by F1 P n d = divide_by F2 P n d) := by
  constructor
  · intro R E A mk toExn P a
    cases P <;> exact ⟨rfl, rfl, rfl⟩
  · intro F1 F2 P n d
    by_cases hd : d = 0
    · cases F1 <;> cases F2 <;> cases P <;>
        simp [divide_by, hd, make_failure_inplace, make_failure_functor,
          make_failure_callable, failure, DivideByError.inplaceCap,
          DivideByErrorFunctor, DivideByError.convCap,
          DivideByError.exceptionOfKind, DivideByError.exceptionOfSelf]
    · cases F1 <;> cases F2 <;> simp [divide_by, hd]

/-- C2: Policy duality.  Every failure constructor throws exactly when the
policy is Exceptions and returns normally exactly when it is Expected (with
the error case populated); every Outcome is exactly one of normal return and
thrown fault; and divide_by throws precisely on (Exceptions, zero
denominator). -/
theorem policy_duality :
    (∀ (R E A : Type) (cap : ExceptionConstructable E A) (P : Policy) (a : A),
      Outcome.isThrown (@make_failure_inplace R E A cap P a)
          = decide (P = Policy.Exceptions) ∧
      Outcome.isRet (@make_failure_inplace R E A cap P a)
          = decide (P = Policy.Expected)) ∧
    (∀ (R E A : Type) (F : ErrorFunctor E A) (P : Policy) (a : A),
      Outcome.isThrown (@make_failure_functor R E A F P a)
          = decide (P = Policy.Exceptions) ∧
      Outcome.isRet (@make_failure_functor R E A F P a)
          = decide (P = Policy.Expected)) ∧
    (∀ (R E A : Type) (u : A → E) (ex : A → RuntimeError) (P : Policy) (a : A),
      Outcome.isThrown (@make_failure_callable R E A u ex P a)
          = decide (P = Policy.Exceptions) ∧
      Outcome.isRet (@make_failure_callable R E A u ex P a)
          = decide (P = Policy.Expected)) ∧
    (∀ (R E : Type) (conv : ExceptionConvertible E) (P : Policy) (e : E),
      Outcome.isThrown (@failure R E conv P e)
          = decide (P = Policy.Exceptions) ∧
      Outcome.isRet (@failure R E conv P e)
          = decide (P = Policy.Expected)) ∧
    (∀ (R E A : Type) (cap : ExceptionConstructable E A) (a : A),
      @make_failure_inplace R E A cap Policy.Expected a
        = Outcome.ret (Expected.err (cap.construct a))) ∧
    (∀ (R E A : Type) (F : ErrorFunctor E A) (a : A),
      @make_failure_functor R E A F Policy.Expected a
        = Outcome.ret (Expected.err (F.unexpected a))) ∧
    (∀ (R E A : Type) (u : A → E) (ex : A → RuntimeError) (a : A),
      @make_failure_callable R E A u ex Policy.Expected a
        = Outcome.ret (Expected.err (u a))) ∧
    (∀ (R E : Type) (conv : ExceptionConvertible E) (e : E),
      @failure R E conv Policy.Expected e = Outcome.ret (Expected.err e)) ∧
    (∀ (A : Type) (o : Outcome A), Outcome.isRet o = !Outcome.isThrown o) ∧
    (∀ (F : FailureMethod) (P : Policy) (n d : Int),
      Outcome.isThrown (divide_by F P n d)
          = decide (P = Policy.Exceptions ∧ d = 0) ∧
      Outcome.isRet (divide_by F P n d)
          = !decide (P = Policy.Exceptions ∧ d = 0)) := by
  refine ⟨?_, ?_, ?_, ?_, ?_, ?_, ?_, ?_, ?_, ?_⟩
  · intro R E A cap P a; cases P <;> exact ⟨rfl, rfl⟩
  · intro R E A F P a; cases P <;> exact ⟨rfl, rfl⟩
  · intro R E A u ex P a; cases P <;> exact ⟨rfl, rfl⟩
  · intro R E conv P e; cases P <;> exact ⟨rfl, rfl⟩
  · intro R E A cap a; rfl
  · intro R E A F a; rfl
  · intro R E A u ex a; rfl
  · intro R E conv e; rfl
  · intro A o; cases o <;> rfl
  · intro F P n d
    by_cases hd : d = 0 <;> cases P <;> cases F <;>
      simp [divide_by, hd, make_failure_inplace, make_failure_functor,
        make_failure_callable, failure, Outcome.isThrown, Outcome.isRet]

/-- C3: Result-type resolver.  ResultType R E Exceptions is exactly R
(independent of E; Unit models void), ResultType R E Expected is the tagged
union Expected R E queryable via has_value, and the mapping is given by a
pure case analysis on the (R, E, Policy) triple. -/
theorem result_type_resolver :
    (∀ (R E : Type), ResultType R E Policy.Exceptions = R) ∧
    (∀ (R E F : Type),
      ResultType R E Policy.Exceptions = ResultType R F Policy.Exceptions) ∧
    (∀ (E : Type), ResultType Unit E Policy.Exceptions = Unit) ∧
    (∀ (R E : Type), ResultType R E Policy.Expected = Expected R E) ∧
    (∀ (R E : Type) (x : Expected R E),
      (∃ v, x = Expected.val v ∧ Expected.has_value x = true) ∨
      (∃ e, x = Expected.err e ∧ Expected.has_value x = false)) ∧
    (∀ (R E : Type) (P : Policy),
      ResultType R E P = match P with
        | Policy.Exceptions => R
        | Policy.Expected => Expected R E) := by
  refine ⟨fun R E => rfl, fun R E F => rfl, fun E => rfl, fun R E => rfl,
    ?_, fun R E P => rfl⟩
  intro R E x
  cases x with
  | val v => exact Or.inl ⟨v, rfl, rfl⟩
  | err e => exact Or.inr ⟨e, rfl, rfl⟩

/-- C4: Success fidelity.  success wraps the value as the success case under
Expected and is the identity under Exceptions; the void overload returns
Unit under Exceptions and the payload-free success case (holding a value)
under Expected. -/
theorem success_fidelity :
    (∀ (R E : Type) (v : R), @success R E Policy.Expected v = Expected.val v) ∧
    (∀ (R E : Type) (v : R), @success R E Policy.Exceptions v = v) ∧
    (∀ (R E : Type) (v : R),
      Expected.has_value (@success R E Policy.Expected v) = true) ∧
    (∀ (E : Type), @successVoid E Policy.Exceptions = ()) ∧
    (∀ (E : Type), @successVoid E Policy.Expected = Expected.val ()) ∧
    (∀ (E : Type),
      Expected.has_value (@successVoid E Policy.Expected) = true) :=
  ⟨fun R E v => rfl, fun R E v => rfl, fun R E v => rfl,
    fun E => rfl, fun E => rfl, fun E => rfl⟩

/-- C5: In-place strategy contract.  make_failure under Exceptions throws the
object produced by the error type's static factory applied to the arguments,
and under Expected returns the error case holding E{args} built directly from
the arguments; instantiated on divide_by's DivideByError at (1, 0). -/
theorem inplace_contract :
    (∀ (R E A : Type) (cap : ExceptionConstructable E A) (a : A),
      @make_failure_inplace R E A cap Policy.Exceptions a
        = Outcome.thrown (cap.exception a)) ∧
    (∀ (R E A : Type) (cap : ExceptionConstructable E A) (a : A),
      @make_failure_inplace R E A cap Policy.Expected a
        = Outcome.ret (Expected.err (cap.construct a))) ∧
    (divide_by FailureMethod.InPlace Policy.Exceptions 1 0
      = Outcome.thrown
          (DivideByError.exceptionOfKind DivideByErrorKind.DivideByZero)) ∧
    (divide_by FailureMethod.InPlace Policy.Expected 1 0
      = Outcome.ret
          (Expected.err (DivideByError.mk DivideByErrorKind.DivideByZero))) :=
  ⟨fun R E A cap a => rfl, fun R E A cap a => rfl, rfl, rfl⟩

/-- C6: Conversion strategy contract.  failure under Exceptions throws the
fault produced by the instance's conversion, and under Expected wraps the
very same already-constructed instance as the error case; instantiated on
divide_by's DivideByError at (1, 0). -/
theorem conversion_contract :
    (∀ (R E : Type) (conv : ExceptionConvertible E) (e : E),
      @failure R E conv Policy.Exceptions e
        = Outcome.thrown (conv.exception e)) ∧
    (∀ (R E : Type) (conv : ExceptionConvertible E) (e : E),
      @failure R E conv Policy.Expected e = Outcome.ret (Expected.err e)) ∧
    (divide_by FailureMethod.Conversion Policy.Exceptions 1 0
      = Outcome.thrown (RuntimeError.mk "Division by Zero")) ∧
    (divide_by FailureMethod.Conversion Policy.Expected 1 0
      = Outcome.ret
          (Expected.err (DivideByError.mk DivideByErrorKind.DivideByZero))) :=
  ⟨fun R E conv e => rfl, fun R E conv e => rfl, rfl, rfl⟩

/-- C7: Division scenarios.  For every FailureMethod, divide_by(1,2) yields
the success case 1/2 under Expected and returns 1/2 normally under
Exceptions; divide_by(1,0) yields the error case whose description is
"Division by Zero" under Expected, and throws a fault whose description is
exactly "Division by Zero" under Exceptions. -/
theorem division_scenarios :
    (∀ F : FailureMethod, divide_by F Policy.Expected 1 2
        = Outcome.ret (Expected.val (1 / 2 : Rat))) ∧
    (∀ F : FailureMethod, divide_by F Policy.Exceptions 1 2
        = Outcome.ret (1 / 2 : Rat)) ∧
    (∀ F : FailureMethod, divide_by F Policy.Expected 1 0
        = Outcome.ret
            (Expected.err (DivideByError.mk DivideByErrorKind.DivideByZero)) ∧
      DivideByError.str (DivideByError.mk DivideByErrorKind.DivideByZero)
        = "Division by Zero") ∧
    (∀ F : FailureMethod, divide_by F Policy.Exceptions 1 0
        = Outcome.thrown (RuntimeError.mk "Division by Zero")) := by
  refine ⟨?_, ?_, ?_, ?_⟩ <;> intro F <;> cases F <;>
    first
      | exact ⟨by decide, by decide⟩
      | decide
      | norm_num [divide_by, success]

/-- C8: Policy override.  A call with an explicit Policy is independent of
the configured process-wide default (which only fills calls that omit the
policy), and switching only the Policy between two identical failing calls
changes the channel (thrown fault vs tagged error value) while the error's
semantic content — its description string — is identical. -/
theorem policy_override :
    (∀ (dp dp2 : Policy) (F : FailureMethod) (P : Policy) (n d : Int),
      divide_by_call dp (some P) F n d = divide_by_call dp2 (some P) F n d) ∧
    (∀ (dp : Policy) (F : FailureMethod) (n d : Int),
      divide_by_call dp none F n d = divide_by F dp n d) ∧
    (∀ (F : FailureMethod) (n : Int),
      divide_by F Policy.Expected n 0
          = Outcome.ret
              (Expected.err (DivideByError.mk DivideByErrorKind.DivideByZero)) ∧
      divide_by F Policy.Exceptions n 0
          = Outcome.thrown (RuntimeError.mk "Division by Zero") ∧
      DivideByError.str (DivideByError.mk DivideByErrorKind.DivideByZero)
        = RuntimeError.what (RuntimeError.mk "Division by Zero")) := by
  refine ⟨fun dp dp2 F P n d => rfl, fun dp F n d => rfl, ?_⟩
  intro F n
  cases F <;> exact ⟨rfl, rfl, rfl⟩

/-- C10: Unused-channel non-invocation.  In the callable-pair and functor
strategies the outcome is fully determined by the active channel's callable
and the arguments: under Expected the result is independent of the
fault-producing callable, under Exceptions it is independent of the
error-value-producing callable. -/
theorem unused_channel_noninvocation :
    (∀ (R E A : Type) (u : A → E) (ex ex2 : A → RuntimeError) (a : A),
      @make_failure_callable R E A u ex Policy.Expected a
        = @make_failure_callable R E A u ex2 Policy.Expected a) ∧
    (∀ (R E A : Type) (u u2 : A → E) (ex : A → RuntimeError) (a : A),
      @make_failure_callable R E A u ex Policy.Exceptions a
        = @make_failure_callable R E A u2 ex Policy.Exceptions a) ∧
    (∀ (R E A : Type) (u : A → E) (ex : A → RuntimeError) (a : A),
      @make_failure_callable R E A u ex Policy.Expected a
        = Outcome.ret (Expected.err (u a))) ∧
    (∀ (R E A : Type) (u : A → E) (ex : A → RuntimeError) (a : A),
      @make_failure_callable R E A u ex Policy.Exceptions a
        = Outcome.thrown (ex a)) ∧
    (∀ (R E A : Type) (xe xe2 : A → RuntimeError) (uu : A → E) (a : A),
      @make_failure_functor R E A (ErrorFunctor.mk xe uu) Policy.Expected a
        = @make_failure_functor R E A (ErrorFunctor.mk xe2 uu)
            Policy.Expected a) ∧
    (∀ (R E A : Type) (xe : A → RuntimeError) (uu uu2 : A → E) (a : A),
      @make_failure_functor R E A (ErrorFunctor.mk xe uu) Policy.Exceptions a
        = @make_failure_functor R E A (ErrorFunctor.mk xe uu2)
            Policy.Exceptions a) :=
  ⟨fun R E A u ex ex2 a => rfl, fun R E A u u2 ex a => rfl,
    fun R E A u ex a => rfl, fun R E A u ex a => rfl,
    fun R E A xe xe2 uu a => rfl, fun R E A xe uu uu2 a => rfl⟩

end Expection
